import Mathlib

/-!
Verification of `custom_components/smartthinq_sensors/select.py`: a shallow
embedding of the ThinQ select-entity adapter layer and proofs about it.

The module under verification wires per-feature behavior closures
(list options / read current option / apply option / availability) into a
generic select entity.  External collaborators (the `LGEDevice` wrapper, the
wideq device state and the `ACAutoDryMode` enum) live outside the verified
source file; the parts of them this module touches are modelled explicitly
below, each with a doc comment saying what is modelled.

Awaitable device calls are modelled in the exception monad `Except ε ρ`:
`ε` is the error raised by the call (propagated to the caller in Python),
`ρ` records which device call was performed (Python discards the awaited
result, but the remote call it stands for is the observable effect).
-/

/-- Modelled from the spec: the device state snapshot held by the device
collaborator (wideq, outside `src/`).  The only part this module reads is the
generic feature map `state.device_features`, a mapping from feature key to a
raw reported value; it is modelled as an association list and read with
`lookup`, mirroring `dict.get` (absent key gives `none`). -/
structure DevState where
  device_features : List (String × String)
deriving Repr

/-- Modelled from the spec: the per-device collaborator (`LGEDevice`, defined
in the integration's `__init__.py`, outside `src/`).  The module reads
`unique_id`, `available`, `available_features` (only key membership is used,
so the feature map is modelled by its key list), `state` (`none` models a
device with no cached snapshot yet), `device_info`, and the wrapped wideq
device object `device`; it signals `async_set_updated`.  `updatedCount`
counts the refresh signals sent, so that signalling is observable. -/
structure LGEDevice (δ : Type) where
  unique_id : String
  available : Bool
  available_features : List String
  state : Option DevState
  device_info : String
  device : δ
  updatedCount : Nat := 0

/-- Modelled from the spec: `async_set_updated` marks the cached state stale /
triggers a coordinator refresh.  Modelled as bumping the signal counter. -/
def LGEDevice.async_set_updated (api : LGEDevice δ) : LGEDevice δ :=
  { api with updatedCount := api.updatedCount + 1 }

/-- `ThinQSelectEntityDescription` (with the required-keys mixin inlined):
the static descriptor of one selectable feature.  `δ` is the wrapped device
type, `ε` the error type of the apply call, `ρ` the record of the device call
it performs.  Presentation metadata (`name`, `icon`) is carried but opaque to
the logic; `available_fn` and `value_fn` default to `None` as in the source. -/
structure ThinQSelectEntityDescription (δ ε ρ : Type) where
  key : String
  name : String := ""
  icon : String := ""
  options_fn : LGEDevice δ → List String
  select_option_fn : LGEDevice δ → String → Except ε ρ
  available_fn : Option (LGEDevice δ → Bool) := none
  value_fn : Option (LGEDevice δ → Option String) := none

/-- `_select_exist` from the source: a select exists for a device when the
descriptor has a `value_fn`, else when the descriptor's key occurs among the
device's `available_features`. -/
def _select_exist (lge_device : LGEDevice δ)
    (select_desc : ThinQSelectEntityDescription δ ε ρ) : Bool :=
  if select_desc.value_fn.isSome then
    true
  else if select_desc.key ∈ lge_device.available_features then
    true
  else
    false

/-- The `LGESelect` entity: holds the api, the descriptor, and the attributes
captured at construction (`_attr_unique_id`, `_attr_device_info`,
`_attr_options`). -/
structure LGESelect (δ ε ρ : Type) where
  _api : LGEDevice δ
  entity_description : ThinQSelectEntityDescription δ ε ρ
  _attr_unique_id : String
  _attr_device_info : String
  _attr_options : List String

/-- `LGESelect.__init__`: captures the unique id
`f"{api.unique_id}-{description.key}-select"`, the device info, and the
option list `options_fn(api)` computed once at construction. -/
def LGESelect.init (api : LGEDevice δ)
    (description : ThinQSelectEntityDescription δ ε ρ) : LGESelect δ ε ρ :=
  { _api := api
    entity_description := description
    _attr_unique_id := api.unique_id ++ "-" ++ description.key ++ "-select"
    _attr_device_info := api.device_info
    _attr_options := description.options_fn api }

/-- `LGESelect.async_select_option`: awaits the descriptor's apply call and,
only after it completes without raising, signals `async_set_updated` on the
api.  The pair returned is (outcome propagated to the caller, the entity as
left afterwards); an exception from the apply call propagates as-is and the
following line never runs. -/
def LGESelect.async_select_option (self : LGESelect δ ε ρ) (option : String) :
    Except ε ρ × LGESelect δ ε ρ :=
  match self.entity_description.select_option_fn self._api option with
  | .error e => (.error e, self)
  | .ok r => (.ok r, { self with _api := self._api.async_set_updated })

/-- `LGESelect.current_option`: the descriptor's `value_fn` when present;
otherwise the generic feature map of the cached state at the descriptor's
key, when a state exists; otherwise `None`. -/
def LGESelect.current_option (self : LGESelect δ ε ρ) : Option String :=
  match self.entity_description.value_fn with
  | some f => f self._api
  | none =>
    match self._api.state with
    | some st => st.device_features.lookup self.entity_description.key
    | none => none

/-- `LGESelect.available`: the descriptor's availability predicate (defaulting
to true when absent) conjoined with the device-level availability flag. -/
def LGESelect.available (self : LGESelect δ ε ρ) : Bool :=
  let is_avail :=
    match self.entity_description.available_fn with
    | some f => f self._api
    | none => true
  self._api.available && is_avail

/-- The body of `_async_discover_device` for one device category: the
descriptors registered for the category crossed with the discovered devices,
filtered through `_select_exist`, each surviving pair constructed into an
`LGESelect`. -/
def _async_discover_device (select_descs : List (ThinQSelectEntityDescription δ ε ρ))
    (lge_devices : List (LGEDevice δ)) : List (LGESelect δ ε ρ) :=
  select_descs.flatMap fun select_desc =>
    (lge_devices.filter fun lge_device => _select_exist lge_device select_desc).map
      fun lge_device => LGESelect.init lge_device select_desc

/-! ### The AC descriptors -/

/-- Modelled from the spec: `ACAutoDryMode` (wideq `devices/ac.py`, outside
`src/`) is the auto-dry enum; its five members named in the verified source's
label table are the ones modelled. -/
inductive ACAutoDryMode
  | OFF
  | MIN_10
  | MIN_30
  | MIN_60
  | AI
deriving DecidableEq

/-- Errors the modelled closures can raise: `valueError` from `int(option)`
on a non-numeric string, `keyError` from indexing the reverse label map with
an unknown label. -/
inductive PyErr
  | valueError
  | keyError
deriving DecidableEq

/-- Record of the remote device call an AC apply closure performs. -/
inductive ACCall
  | set_vertical_step_mode (n : Int)
  | set_auto_dry_mode (m : ACAutoDryMode)
deriving DecidableEq

/-- Modelled from the spec: the slice of the wideq AC device object read by
the descriptors.  `vertical_step_mode` is `some v` when the device reports
the integer `v` and `none` when it reports nothing or a non-integer value
(the source guards with `isinstance(v, int)`); `auto_dry_mode` is `some m`
when the reported value is one of the five enum members keyed in the label
table and `none` for anything else (the source guards with membership in the
table).  The capability lists are `none` when unreported. -/
structure ACDevice where
  vertical_step_modes : Option (List Int)
  vertical_step_mode : Option Int
  auto_dry_modes : Option (List ACAutoDryMode)
  auto_dry_mode : Option ACAutoDryMode

/-- `AUTO_DRY_LABEL`: the label table, a dict whose keys are exactly the five
enum members, modelled as the total map it is. -/
def AUTO_DRY_LABEL : ACAutoDryMode → String
  | .OFF => "꺼짐"
  | .MIN_10 => "10분"
  | .MIN_30 => "30분"
  | .MIN_60 => "60분"
  | .AI => "AI건조"

/-- The five members of the modelled enum, in table order. -/
def ACAutoDryMode.all : List ACAutoDryMode :=
  [.OFF, .MIN_10, .MIN_30, .MIN_60, .AI]

/-- `AUTO_DRY_FROM_LABEL`: the reverse map, label to enum member.  The labels
are pairwise distinct, so first-match lookup agrees with the Python dict
comprehension. -/
def AUTO_DRY_FROM_LABEL : List (String × ACAutoDryMode) :=
  ACAutoDryMode.all.map fun m => (AUTO_DRY_LABEL m, m)

/-- `options_fn` of `AC_VSTEP_SELECT`:
`[str(int(m)) for m in (x.device.vertical_step_modes or [])]`. -/
def ac_vstep_options (x : LGEDevice ACDevice) : List String :=
  (x.device.vertical_step_modes.getD []).map fun m => toString m

/-- Accumulator pass over decimal digits; fails on the first non-digit. -/
def pyDigitsAux : Nat → List Char → Option Nat
  | acc, [] => some acc
  | acc, c :: cs =>
    if c.isDigit then pyDigitsAux (acc * 10 + (c.toNat - 48)) cs
    else none

/-- A nonempty run of decimal digits, as a number. -/
def pyDigits : List Char → Option Nat
  | [] => none
  | l => pyDigitsAux 0 l

/-- Model of Python `int(s)` on a string: an optional sign followed by one or
more decimal digits (surrounding whitespace and digit-group underscores are
not modelled); any other string raises `ValueError`, modelled as `none`. -/
def pyInt (s : String) : Option Int :=
  match s.data with
  | '-' :: rest => (pyDigits rest).map fun n => -(n : Int)
  | '+' :: rest => (pyDigits rest).map fun n => (n : Int)
  | l => (pyDigits l).map fun n => (n : Int)

/-- `select_option_fn` of `AC_VSTEP_SELECT`:
`x.device.set_vertical_step_mode(int(option))`; `int(option)` raises
`ValueError` on a non-numeric string. -/
def ac_vstep_select_option (x : LGEDevice ACDevice) (option : String) :
    Except PyErr ACCall :=
  match pyInt option with
  | some n => .ok (ACCall.set_vertical_step_mode n)
  | none => .error .valueError

/-- `value_fn` of `AC_VSTEP_SELECT`:
`str(v) if isinstance(v := x.device.vertical_step_mode, int) and 1 <= v <= 6
else None`. -/
def ac_vstep_value (x : LGEDevice ACDevice) : Option String :=
  match x.device.vertical_step_mode with
  | some v => if 1 ≤ v ∧ v ≤ 6 then some (toString v) else none
  | none => none

/-- `available_fn` of `AC_VSTEP_SELECT`: `bool(x.device.vertical_step_modes)`
(`None` and the empty list are falsy). -/
def ac_vstep_available (x : LGEDevice ACDevice) : Bool :=
  match x.device.vertical_step_modes with
  | some l => !l.isEmpty
  | none => false

/-- `AC_VSTEP_SELECT`: the vertical-wind-step descriptor (the source's tuple
holds this single descriptor). -/
def AC_VSTEP_SELECT : ThinQSelectEntityDescription ACDevice PyErr ACCall :=
  { key := "ac_vertical_wind_step"
    name := "Vertical Wind Step"
    icon := "mdi:unfold-more-vertical"
    options_fn := ac_vstep_options
    select_option_fn := ac_vstep_select_option
    value_fn := some ac_vstep_value
    available_fn := some ac_vstep_available }

/-- `options_fn` of `AC_AUTODRY_SELECT`:
`[AUTO_DRY_LABEL[m] for m in (x.device.auto_dry_modes or [])]`. -/
def ac_autodry_options (x : LGEDevice ACDevice) : List String :=
  (x.device.auto_dry_modes.getD []).map AUTO_DRY_LABEL

/-- `select_option_fn` of `AC_AUTODRY_SELECT`:
`x.device.set_auto_dry_mode(AUTO_DRY_FROM_LABEL[option])`; indexing with an
unknown label raises `KeyError`. -/
def ac_autodry_select_option (x : LGEDevice ACDevice) (option : String) :
    Except PyErr ACCall :=
  match AUTO_DRY_FROM_LABEL.lookup option with
  | some m => .ok (ACCall.set_auto_dry_mode m)
  | none => .error .keyError

/-- `value_fn` of `AC_AUTODRY_SELECT`:
`AUTO_DRY_LABEL.get(x.device.auto_dry_mode) if x.device.auto_dry_mode in
AUTO_DRY_LABEL else None`; membership in the table is exactly being one of
the five modelled members, i.e. `isSome` of the modelled field. -/
def ac_autodry_value (x : LGEDevice ACDevice) : Option String :=
  match x.device.auto_dry_mode with
  | some m => some (AUTO_DRY_LABEL m)
  | none => none

/-- `available_fn` of `AC_AUTODRY_SELECT`: `bool(x.device.auto_dry_modes)`. -/
def ac_autodry_available (x : LGEDevice ACDevice) : Bool :=
  match x.device.auto_dry_modes with
  | some l => !l.isEmpty
  | none => false

/-- `AC_AUTODRY_SELECT`: the auto-dry descriptor. -/
def AC_AUTODRY_SELECT : ThinQSelectEntityDescription ACDevice PyErr ACCall :=
  { key := "ac_autodry_mode"
    name := "Auto Dry"
    icon := "mdi:hair-dryer"
    options_fn := ac_autodry_options
    select_option_fn := ac_autodry_select_option
    value_fn := some ac_autodry_value
    available_fn := some ac_autodry_available }

/-! ### Concrete fixtures used to instantiate the generic theorems -/

/-- A sample cached state snapshot with one reported feature. -/
def sampleState : DevState :=
  { device_features := [("feat_a", "val_a")] }

/-- A sample device collaborator with one available feature key. -/
def sampleApi : LGEDevice Unit :=
  { unique_id := "dev0"
    available := true
    available_features := ["feat_a"]
    state := some sampleState
    device_info := "info0"
    device := () }

/-- A descriptor with no value function whose key is reported by
`sampleApi`. -/
def sampleDescNoValue : ThinQSelectEntityDescription Unit Unit Unit :=
  { key := "feat_a"
    options_fn := fun _ => ["o1", "o2"]
    select_option_fn := fun _ _ => .ok () }

/-- A descriptor with a value function and a key absent from every feature
map used here. -/
def sampleDescWithValue : ThinQSelectEntityDescription Unit Unit Unit :=
  { key := "other_key"
    options_fn := fun _ => ["o1"]
    select_option_fn := fun _ _ => .ok ()
    value_fn := some fun _ => some "o1" }

/-- A descriptor whose apply call always raises. -/
def sampleDescFail : ThinQSelectEntityDescription Unit Unit Unit :=
  { key := "feat_a"
    options_fn := fun _ => ["o1"]
    select_option_fn := fun _ _ => .error () }

/-- The AC device of spec scenario 5: steps 1..6 supported, step 3 active. -/
def acDeviceScenario : ACDevice :=
  { vertical_step_modes := some [1, 2, 3, 4, 5, 6]
    vertical_step_mode := some 3
    auto_dry_modes := none
    auto_dry_mode := none }

/-- The `LGEDevice` wrapper around `acDeviceScenario`. -/
def acApiScenario : LGEDevice ACDevice :=
  { unique_id := "ac0"
    available := true
    available_features := []
    state := none
    device_info := "ac info"
    device := acDeviceScenario }

/-- An AC device reporting no vertical-step capability at all. -/
def acDeviceNoVStep : ACDevice :=
  { vertical_step_modes := none
    vertical_step_mode := none
    auto_dry_modes := none
    auto_dry_mode := none }

/-- The `LGEDevice` wrapper around `acDeviceNoVStep`. -/
def acApiNoVStep : LGEDevice ACDevice :=
  { unique_id := "ac1"
    available := true
    available_features := []
    state := none
    device_info := "ac info"
    device := acDeviceNoVStep }

/-- An AC device whose reported current step (3) is not in its reported
capability list (empty). -/
def acDeviceInconsistent : ACDevice :=
  { vertical_step_modes := some []
    vertical_step_mode := some 3
    auto_dry_modes := none
    auto_dry_mode := none }

/-- The `LGEDevice` wrapper around `acDeviceInconsistent`. -/
def acApiInconsistent : LGEDevice ACDevice :=
  { unique_id := "ac2"
    available := true
    available_features := []
    state := none
    device_info := "ac info"
    device := acDeviceInconsistent }

/-- A device whose unique id itself contains a hyphen. -/
def apiUidAB : LGEDevice Unit :=
  { unique_id := "a-b"
    available := true
    available_features := []
    state := none
    device_info := "i"
    device := () }

/-- A device with unique id a prefix of the previous one's. -/
def apiUidA : LGEDevice Unit :=
  { unique_id := "a"
    available := true
    available_features := []
    state := none
    device_info := "i"
    device := () }

/-- A descriptor with plain key "c". -/
def descKeyC : ThinQSelectEntityDescription Unit Unit Unit :=
  { key := "c"
    options_fn := fun _ => []
    select_option_fn := fun _ _ => .ok () }

/-- A descriptor with hyphenated key "b-c". -/
def descKeyBC : ThinQSelectEntityDescription Unit Unit Unit :=
  { key := "b-c"
    options_fn := fun _ => []
    select_option_fn := fun _ _ => .ok () }

/-- An AC device supporting auto-dry OFF and AI, with AI active. -/
def acDeviceAutoDry : ACDevice :=
  { vertical_step_modes := none
    vertical_step_mode := none
    auto_dry_modes := some [.OFF, .AI]
    auto_dry_mode := some .AI }

/-- The `LGEDevice` wrapper around `acDeviceAutoDry`. -/
def acApiAutoDry : LGEDevice ACDevice :=
  { unique_id := "ac3"
    available := true
    available_features := []
    state := none
    device_info := "ac info"
    device := acDeviceAutoDry }

/-! ### Claims -/

/-- C1: `_select_exist` returns true whenever the descriptor's value function
is present, regardless of the device's feature map; when the value function
is absent it returns true iff the descriptor's key appears among the device's
reported feature keys. -/
theorem select_exist_spec (d : LGEDevice δ)
    (desc : ThinQSelectEntityDescription δ ε ρ) :
    (desc.value_fn.isSome = true → _select_exist d desc = true) ∧
    (desc.value_fn = none →
      (_select_exist d desc = true ↔ desc.key ∈ d.available_features)) := by
  constructor
  · intro h
    simp [_select_exist, h]
  · intro h
    simp only [_select_exist, h, Option.isSome_none, Bool.false_eq_true, if_false]
    by_cases hk : desc.key ∈ d.available_features <;> simp [hk]

/-- Witness for C1: both branches evaluated on concrete fixtures. -/
theorem select_exist_spec_witness :
    _select_exist sampleApi sampleDescWithValue = true ∧
    (_select_exist sampleApi sampleDescNoValue = true ↔
      sampleDescNoValue.key ∈ sampleApi.available_features) :=
  ⟨(select_exist_spec sampleApi sampleDescWithValue).1 rfl,
   (select_exist_spec sampleApi sampleDescNoValue).2 rfl⟩

/-- C3: `current_option` is the value function's result when that function is
present; otherwise the cached state's feature map at the descriptor's key
when a state exists; otherwise absent. -/
theorem current_option_spec (self : LGESelect δ ε ρ) :
    (∀ f, self.entity_description.value_fn = some f →
      self.current_option = f self._api) ∧
    (self.entity_description.value_fn = none →
      ∀ st, self._api.state = some st →
        self.current_option =
          st.device_features.lookup self.entity_description.key) ∧
    (self.entity_description.value_fn = none → self._api.state = none →
      self.current_option = none) := by
  refine ⟨?_, ?_, ?_⟩
  · intro f hf
    simp [LGESelect.current_option, hf]
  · intro hv st hst
    simp [LGESelect.current_option, hv, hst]
  · intro hv hst
    simp [LGESelect.current_option, hv, hst]

/-- Witness for C3: the fallback branch on a device with a cached state, and
the value-function branch, on concrete fixtures. -/
theorem current_option_spec_witness :
    (LGESelect.init sampleApi sampleDescNoValue).current_option =
      sampleState.device_features.lookup "feat_a" ∧
    (LGESelect.init sampleApi sampleDescWithValue).current_option = some "o1" :=
  ⟨(current_option_spec (LGESelect.init sampleApi sampleDescNoValue)).2.1
      rfl sampleState rfl,
   (current_option_spec (LGESelect.init sampleApi sampleDescWithValue)).1
      (fun _ => some "o1") rfl⟩

/-- C4: `available` is the conjunction of the device-level flag and the
descriptor's availability predicate (true when absent); it is false whenever
the device-level flag is false. -/
theorem available_spec (self : LGESelect δ ε ρ) :
    (self.entity_description.available_fn = none →
      self.available = self._api.available) ∧
    (∀ f, self.entity_description.available_fn = some f →
      self.available = (self._api.available && f self._api)) ∧
    (self._api.available = false → self.available = false) := by
  refine ⟨?_, ?_, ?_⟩
  · intro h
    simp [LGESelect.available, h]
  · intro f hf
    simp [LGESelect.available, hf]
  · intro h
    simp [LGESelect.available, h]

/-- Witness for C4: on the fixture with no descriptor predicate, availability
equals the device flag. -/
theorem available_spec_witness :
    (LGESelect.init sampleApi sampleDescNoValue).available =
      sampleApi.available :=
  (available_spec (LGESelect.init sampleApi sampleDescNoValue)).1 rfl

/-- C2: `async_select_option` awaits the apply call first; a failure
propagates unchanged with no refresh signal and the entity left exactly as it
was; on success the outcome is returned and exactly one refresh signal is
sent, the entity otherwise unchanged.  The statement holds for every option
string, with no hypothesis that the option belongs to `_attr_options`: no
local validation is performed. -/
theorem async_select_option_spec (self : LGESelect δ ε ρ) (option : String) :
    (∀ e, self.entity_description.select_option_fn self._api option = .error e →
      self.async_select_option option = (.error e, self)) ∧
    (∀ r, self.entity_description.select_option_fn self._api option = .ok r →
      self.async_select_option option =
        (.ok r, { self with _api := self._api.async_set_updated }) ∧
      (self.async_select_option option).2._api.updatedCount =
        self._api.updatedCount + 1) := by
  constructor
  · intro e he
    simp [LGESelect.async_select_option, he]
  · intro r hr
    simp [LGESelect.async_select_option, hr, LGEDevice.async_set_updated]

/-- Witness for C2: a failing apply leaves the fixture entity untouched and
propagates the error; a succeeding apply bumps the refresh-signal count. -/
theorem async_select_option_spec_witness :
    (LGESelect.init sampleApi sampleDescFail).async_select_option "o1" =
      (.error (), LGESelect.init sampleApi sampleDescFail) ∧
    ((LGESelect.init sampleApi sampleDescNoValue).async_select_option
        "o1").2._api.updatedCount =
      (LGESelect.init sampleApi sampleDescNoValue)._api.updatedCount + 1 :=
  ⟨(async_select_option_spec (LGESelect.init sampleApi sampleDescFail) "o1").1
      () rfl,
   ((async_select_option_spec (LGESelect.init sampleApi sampleDescNoValue)
      "o1").2 () rfl).2⟩

/-- C6: the option list is computed once at construction as
`options_fn(api)`; `async_select_option` leaves the captured list untouched,
and replacing the entity's device reference (a device-state change) does not
touch it either (`current_option` and `available` are read-only by type). -/
theorem options_captured_once (api : LGEDevice δ)
    (desc : ThinQSelectEntityDescription δ ε ρ) (self : LGESelect δ ε ρ) :
    (LGESelect.init api desc)._attr_options = desc.options_fn api ∧
    (∀ option, ((self.async_select_option option).2)._attr_options =
      self._attr_options) ∧
    (∀ api2, ({ self with _api := api2 } : LGESelect δ ε ρ)._attr_options =
      self._attr_options) := by
  refine ⟨rfl, ?_, fun _ => rfl⟩
  intro option
  unfold LGESelect.async_select_option
  cases self.entity_description.select_option_fn self._api option <;> rfl

/-- C7 (spec scenario 5): on an AC device reporting steps 1..6 with step 3
active, the vertical-wind-step entity's captured options are
["1","2","3","4","5","6"], its current option is "3", and selecting "5"
performs the device call `set_vertical_step_mode(5)`. -/
theorem vstep_scenario :
    (LGESelect.init acApiScenario AC_VSTEP_SELECT)._attr_options =
      ["1", "2", "3", "4", "5", "6"] ∧
    (LGESelect.init acApiScenario AC_VSTEP_SELECT).current_option =
      some "3" ∧
    ((LGESelect.init acApiScenario AC_VSTEP_SELECT).async_select_option
        "5").1 = .ok (ACCall.set_vertical_step_mode 5) := by
  refine ⟨rfl, by decide, ?_⟩
  rfl

/-- C5 counterexample: an AC device reporting no `vertical_step_modes` at all
still passes `_select_exist` (the descriptor carries a value function, which
makes the predicate true unconditionally), and discovery constructs one
entity for it — the pair is not filtered out. -/
theorem vstep_empty_still_materialized :
    _select_exist acApiNoVStep AC_VSTEP_SELECT = true ∧
    (_async_discover_device [AC_VSTEP_SELECT] [acApiNoVStep]).length = 1 :=
  ⟨rfl, rfl⟩

/-- C5 amended: for an AC device whose `vertical_step_modes` list is empty or
absent, the vertical-wind-step pair still passes the existence predicate and
the entity is constructed, but its availability predicate makes the entity
unavailable. -/
theorem vstep_empty_unavailable (api : LGEDevice ACDevice)
    (h : api.device.vertical_step_modes = none ∨
      api.device.vertical_step_modes = some []) :
    _select_exist api AC_VSTEP_SELECT = true ∧
    (LGESelect.init api AC_VSTEP_SELECT).available = false := by
  constructor
  · rfl
  · have hav : ac_vstep_available api = false := by
      rcases h with h | h <;> simp [ac_vstep_available, h]
    simp [LGESelect.available, LGESelect.init, AC_VSTEP_SELECT, hav]

/-- Witness for the amended C5, on the concrete capability-free device. -/
theorem vstep_empty_unavailable_witness :
    _select_exist acApiNoVStep AC_VSTEP_SELECT = true ∧
    (LGESelect.init acApiNoVStep AC_VSTEP_SELECT).available = false :=
  vstep_empty_unavailable acApiNoVStep (Or.inl rfl)

/-- C8 counterexample: on a device whose reported current step (3) is not in
its reported capability list (empty), the vertical-wind-step value function
returns "3" while the options function returns the empty list, so the
current value is not a member of the options list. -/
theorem value_not_in_options :
    AC_VSTEP_SELECT.value_fn = some ac_vstep_value ∧
    AC_VSTEP_SELECT.options_fn = ac_vstep_options ∧
    ac_vstep_value acApiInconsistent = some "3" ∧
    "3" ∉ ac_vstep_options acApiInconsistent := by
  refine ⟨rfl, rfl, by decide, by decide⟩

/-- C8 amended: for both AC descriptors, whenever the device's reported
current value is a member of its reported capability list, the value
function's result is a member of the options function's result. -/
theorem value_in_options_of_consistent (api : LGEDevice ACDevice) :
    (∀ v, api.device.vertical_step_mode = some v →
      v ∈ api.device.vertical_step_modes.getD [] →
      ∀ s, ac_vstep_value api = some s → s ∈ ac_vstep_options api) ∧
    (∀ m, api.device.auto_dry_mode = some m →
      m ∈ api.device.auto_dry_modes.getD [] →
      ∀ s, ac_autodry_value api = some s → s ∈ ac_autodry_options api) := by
  constructor
  · intro v hv hmem s hs
    have hval : ac_vstep_value api =
        if 1 ≤ v ∧ v ≤ 6 then some (toString v) else none := by
      unfold ac_vstep_value
      rw [hv]
    rw [hval] at hs
    by_cases hr : 1 ≤ v ∧ v ≤ 6
    · rw [if_pos hr] at hs
      obtain rfl := Option.some.inj hs
      unfold ac_vstep_options
      exact List.mem_map.mpr ⟨v, hmem, rfl⟩
    · rw [if_neg hr] at hs
      exact absurd hs (by simp)
  · intro m hm hmem s hs
    have hval : ac_autodry_value api = some (AUTO_DRY_LABEL m) := by
      unfold ac_autodry_value
      rw [hm]
    rw [hval] at hs
    obtain rfl := Option.some.inj hs
    unfold ac_autodry_options
    exact List.mem_map.mpr ⟨m, hmem, rfl⟩

/-- Witness for the amended C8: the scenario device reports step 3 inside its
list 1..6, and "3" is indeed among the options. -/
theorem value_in_options_of_consistent_witness :
    ("3" : String) ∈ ac_vstep_options acApiScenario :=
  (value_in_options_of_consistent acApiScenario).1 3 rfl (by decide) "3"
    (by decide)

/-- C9 counterexample: the identifier string does not determine the
(uniqueId, key) pair — a hyphenated uniqueId "a-b" with key "c" collides
with uniqueId "a" and key "b-c". -/
theorem unique_id_collision :
    (LGESelect.init apiUidAB descKeyC)._attr_unique_id =
      (LGESelect.init apiUidA descKeyBC)._attr_unique_id ∧
    ¬(apiUidAB.unique_id = apiUidA.unique_id ∧
      descKeyC.key = descKeyBC.key) := by
  constructor
  · decide
  · decide

/-- C9 amended: equal uniqueIds and keys give equal identifier strings, and
for two devices sharing a uniqueId the identifier string determines the key;
but across devices distinct pairs can collide (see the counterexample). -/
theorem unique_id_key_inj (api1 api2 : LGEDevice δ)
    (d1 d2 : ThinQSelectEntityDescription δ ε ρ)
    (h : api1.unique_id = api2.unique_id) :
    (LGESelect.init api1 d1)._attr_unique_id =
      (LGESelect.init api2 d2)._attr_unique_id ↔ d1.key = d2.key := by
  unfold LGESelect.init
  rw [h]
  constructor
  · intro he
    have hd := congrArg String.data he
    simp only [String.data_append] at hd
    exact String.ext (List.append_cancel_left (List.append_cancel_right hd))
  · intro hk
    rw [hk]

/-- Witness for the amended C9: for one fixture device, identifier equality
reduces exactly to key equality. -/
theorem unique_id_key_inj_witness :
    (LGESelect.init apiUidA descKeyC)._attr_unique_id =
      (LGESelect.init apiUidA descKeyBC)._attr_unique_id ↔
    descKeyC.key = descKeyBC.key :=
  unique_id_key_inj apiUidA apiUidA descKeyC descKeyBC rfl

/-- C10: both AC value functions are total guards — the vertical-step one
returns the decimal string of the reported step exactly when that step is an
integer in 1..6 and absent otherwise (a non-integer or unreported value is
modelled by `none`); the auto-dry one returns the label of the reported mode
exactly when that mode is one of the five members keyed in the label table
and absent otherwise.  Both are total `Option`-valued functions, so no
exception is possible on the read path. -/
theorem ac_value_fn_guards (api : LGEDevice ACDevice) :
    AC_VSTEP_SELECT.value_fn = some ac_vstep_value ∧
    AC_AUTODRY_SELECT.value_fn = some ac_autodry_value ∧
    (∀ v, api.device.vertical_step_mode = some v → 1 ≤ v → v ≤ 6 →
      ac_vstep_value api = some (toString v)) ∧
    (∀ v, api.device.vertical_step_mode = some v → ¬(1 ≤ v ∧ v ≤ 6) →
      ac_vstep_value api = none) ∧
    (api.device.vertical_step_mode = none → ac_vstep_value api = none) ∧
    (∀ m, api.device.auto_dry_mode = some m →
      ac_autodry_value api = some (AUTO_DRY_LABEL m)) ∧
    (api.device.auto_dry_mode = none → ac_autodry_value api = none) := by
  refine ⟨rfl, rfl, ?_, ?_, ?_, ?_, ?_⟩
  · intro v hv h1 h6
    have hval : ac_vstep_value api =
        if 1 ≤ v ∧ v ≤ 6 then some (toString v) else none := by
      unfold ac_vstep_value
      rw [hv]
    rw [hval, if_pos ⟨h1, h6⟩]
  · intro v hv hr
    have hval : ac_vstep_value api =
        if 1 ≤ v ∧ v ≤ 6 then some (toString v) else none := by
      unfold ac_vstep_value
      rw [hv]
    rw [hval, if_neg hr]
  · intro h
    unfold ac_vstep_value
    rw [h]
  · intro m hm
    unfold ac_autodry_value
    rw [hm]
  · intro h
    unfold ac_autodry_value
    rw [h]

/-- Witness for C10: the in-range, labelled, and unreported branches on
concrete devices. -/
theorem ac_value_fn_guards_witness :
    ac_vstep_value acApiScenario = some (toString (3 : Int)) ∧
    ac_autodry_value acApiAutoDry = some (AUTO_DRY_LABEL ACAutoDryMode.AI) ∧
    ac_vstep_value acApiNoVStep = none :=
  ⟨(ac_value_fn_guards acApiScenario).2.2.1 3 rfl (by decide) (by decide),
   (ac_value_fn_guards acApiAutoDry).2.2.2.2.2.1 ACAutoDryMode.AI rfl,
   (ac_value_fn_guards acApiNoVStep).2.2.2.2.1 rfl⟩
